import Mathlib

/-!
Verification of the `ncbi-mcp-server` adapter (Python sources
`ncbi_mcp_server/ncbi_client.py` and `ncbi_mcp_server/server.py`).

The adapter parses NCBI XML responses with `xmltodict`, which yields a
dynamically typed tree of `None` / `str` / `list` / `dict` values.  We embed
that value universe as `PyVal`, give the relevant pieces of the Python dynamic
semantics (`in`, subscripting, truthiness, `int(...)`, keyword-argument
binding), and translate each client operation and facade tool as a function
from the (already parsed) upstream response to the value the Python code
returns.  Exceptions are modelled with `Except String`; a function whose
Python counterpart catches all exceptions is total.
-/

namespace NcbiMcp

/-- Value universe produced by `xmltodict.parse` and manipulated by the
adapter: Python `None`, `str`, `list`, and (ordered) `dict` with string
keys. -/
inductive PyVal where
  | none : PyVal
  | str : String → PyVal
  | list : List PyVal → PyVal
  | dict : List (String × PyVal) → PyVal
deriving Repr

/-- A Python dict is embedded as an association list (first binding wins,
matching dict key uniqueness in practice). -/
abbrev PyDict := List (String × PyVal)

/-- Lookup of a key in an embedded dict. -/
def lookupKey : PyDict → String → Option PyVal
  | [], _ => Option.none
  | (k, v) :: rest, key => if k = key then some v else lookupKey rest key

/-- Key membership `key in d` for an embedded dict. -/
def hasKey (d : PyDict) (k : String) : Bool :=
  (lookupKey d k).isSome

/-- Python truthiness of the modelled values: `None`, `""`, `[]` and `{}`
are falsy, everything else truthy. -/
def pyTruthy : PyVal → Bool
  | .none => false
  | .str s => !(s == "")
  | .list xs => !xs.isEmpty
  | .dict d => !d.isEmpty

/-- Prefix test: `startsWithChars p s` holds when the char list `p` starts `s`. -/
def startsWithChars : List Char → List Char → Bool
  | [], _ => true
  | _ :: _, [] => false
  | p :: ps, c :: cs => p == c && startsWithChars ps cs

/-- Substring test: `hasSubstringChars p s` holds when `p` occurs contiguously in `s`. -/
def hasSubstringChars (pat : List Char) : List Char → Bool
  | [] => startsWithChars pat []
  | c :: cs => startsWithChars pat (c :: cs) || hasSubstringChars pat cs

/-- Python `k in s` on strings: substring containment. -/
def pySubstring (k s : String) : Bool :=
  hasSubstringChars k.data s.data

/-- Python `k in v`: key membership for dicts, substring test for strings,
element membership for lists; raises `TypeError` on `None`. -/
def py_in (k : String) : PyVal → Except String Bool
  | .none => .error "TypeError: argument of type NoneType is not iterable"
  | .str s => .ok (pySubstring k s)
  | .list xs => .ok (xs.any (fun x => match x with | .str s => s == k | _ => false))
  | .dict d => .ok (hasKey d k)

/-- Python `v[k]` for a string key: dict lookup (raising `KeyError` when the
key is absent), `TypeError` on every other value. -/
def pyGet (v : PyVal) (k : String) : Except String PyVal :=
  match v with
  | .dict d =>
      match lookupKey d k with
      | some x => .ok x
      | Option.none => .error ("KeyError: " ++ k)
  | .none => .error "TypeError: NoneType object is not subscriptable"
  | .str _ => .error "TypeError: string indices must be integers"
  | .list _ => .error "TypeError: list indices must be integers"

/-- Python `d.get(k, dflt)` on a value expected to be a dict: raises
`AttributeError` when the receiver is not a dict. -/
def pyGetD (v : PyVal) (k : String) (dflt : PyVal) : Except String PyVal :=
  match v with
  | .dict d => .ok ((lookupKey d k).getD dflt)
  | _ => .error "AttributeError: object has no attribute get"

/-- The recurring `x if isinstance(x, list) else [x]` normalisation the
client applies to every repeated XML element. -/
def pyEnsureList : PyVal → List PyVal
  | .list xs => xs
  | v => [v]

/-- Accumulating decimal-digit parser: `none` when no digit has been seen
yet or a non-digit is hit. -/
def parseDigits : List Char → Option Nat → Option Nat
  | [], acc => acc
  | c :: cs, acc =>
      if c.isDigit then
        parseDigits cs (some ((acc.getD 0) * 10 + (c.toNat - 48)))
      else
        Option.none

/-- Python `int(s)` on a string: an optional sign followed by at least one
decimal digit; anything else is a `ValueError`. -/
def pyStrToInt (s : String) : Option Int :=
  match s.data with
  | '-' :: cs => (parseDigits cs Option.none).map (fun n => -(n : Int))
  | cs => (parseDigits cs Option.none).map (fun n => (n : Int))

/-- Python `int(v)`: parses a decimal string, raises `ValueError` on a
malformed string and `TypeError` on non-string values. -/
def pyIntOfVal : PyVal → Except String Int
  | .str s =>
      match pyStrToInt s with
      | some n => .ok n
      | Option.none => .error ("ValueError: invalid literal for int: " ++ s)
  | _ => .error "TypeError: int() argument must be a string or a number"

/-! Embedding of `NCBIClient.search` (ncbi_client.py, lines 100-145).

The HTTP/XML layer (`_make_request`) is out of scope; a client operation is
embedded as a function of the already parsed response tree, with transport
failure represented by an incoming `Except.error`. -/

/-- Typed search result (`SearchResult` pydantic model).  The optional
fields keep the raw `PyVal` handed to them (`None` when absent, matching
`dict.get`). -/
structure SearchResult where
  count : Int
  retmax : Int
  retstart : Int
  ids : List PyVal
  query_translation : PyVal
  web_env : PyVal
  query_key : PyVal
deriving Repr

/-- Python `search_result.get(key, 0)` followed by `int(...)`: a missing key gives
the integer default `0` directly; a present value goes through `int`. -/
def searchGetInt (d : PyDict) (key : String) : Except String Int :=
  match lookupKey d key with
  | Option.none => .ok 0
  | some v => pyIntOfVal v

/-- Body of `NCBIClient.search` after the esearch request: unwraps
`eSearchResult`, normalises the `IdList/Id` single-vs-list ambiguity, and
builds the `SearchResult` with counts defaulting to 0. -/
def parseSearch (result : PyVal) : Except String SearchResult := do
  let search_result ← pyGet result "eSearchResult"
  let inIdList ← py_in "IdList" search_result
  let ids ←
    if inIdList then do
      let idlist ← pyGet search_result "IdList"
      if pyTruthy idlist then do
        let id_list ← pyGet idlist "Id"
        pure (pyEnsureList id_list)
      else
        pure ([] : List PyVal)
    else
      pure ([] : List PyVal)
  let d ←
    match search_result with
    | .dict d => Except.ok d
    | _ => Except.error "AttributeError: object has no attribute get"
  let count ← searchGetInt d "Count"
  let retmax ← searchGetInt d "RetMax"
  let retstart ← searchGetInt d "RetStart"
  pure { count := count, retmax := retmax, retstart := retstart, ids := ids,
         query_translation := (lookupKey d "QueryTranslation").getD PyVal.none,
         web_env := (lookupKey d "WebEnv").getD PyVal.none,
         query_key := (lookupKey d "QueryKey").getD PyVal.none }

/-- Embedded `NCBIClient.search`: transport/parse failure propagates, otherwise the
response tree is parsed by `parseSearch`. -/
def NCBIClient.search (response : Except String PyVal) : Except String SearchResult :=
  response.bind parseSearch

/-! Embedding of `NCBIClient.summary` (ncbi_client.py, lines 171-223). -/

/-- Typed summary record (`SummaryResult` pydantic model); fields keep the
dynamic values the Python code assigns them (`title=""`, `authors=[]`
initially, optional fields `None`). -/
structure SummaryResult where
  uid : PyVal
  title : PyVal
  authors : List PyVal
  journal : PyVal
  pub_date : PyVal
  doi : PyVal
  pmid : PyVal
deriving Repr

/-- Processing of one `<Item Name=...>` pair inside a `DocSum`: recognised
names update the corresponding field, `AuthorList` normalises a bare string
to a one-element list, unrecognised names are ignored. -/
def applyItem (s : SummaryResult) (item : PyVal) : Except String SummaryResult := do
  let name ← pyGetD item "@Name" (.str "")
  let value ← pyGetD item "#text" (.str "")
  pure
    (match name with
     | .str n =>
       if n = "Title" then { s with title := value }
       else if n = "AuthorList" then
         match value with
         | .str _ => { s with authors := [value] }
         | .list xs => { s with authors := xs }
         | _ => s
       else if n = "FullJournalName" then { s with journal := value }
       else if n = "PubDate" then { s with pub_date := value }
       else if n = "DOI" then { s with doi := value }
       else if n = "PMID" then { s with pmid := value }
       else s
     | _ => s)

/-- One `DocSum` entry: `uid` comes from the mandatory `Id` subscript, the
remaining fields from the optional `Item` list. -/
def parseDocSum (doc_sum : PyVal) : Except String SummaryResult := do
  let uid ← pyGet doc_sum "Id"
  let init : SummaryResult :=
    { uid := uid, title := .str "", authors := [],
      journal := .none, pub_date := .none, doi := .none, pmid := .none }
  let inItem ← py_in "Item" doc_sum
  if inItem then do
    let items ← pyGet doc_sum "Item"
    (pyEnsureList items).foldlM applyItem init
  else
    pure init

/-- Body of `NCBIClient.summary` after the esummary request: no
`eSummaryResult` key yields `[]`; otherwise `DocSum` is subscripted
unconditionally (a `KeyError` escapes when it is absent). -/
def parseSummary (result : PyVal) : Except String (List SummaryResult) := do
  let inRes ← py_in "eSummaryResult" result
  if inRes then do
    let esr ← pyGet result "eSummaryResult"
    let doc_sum_list ← pyGet esr "DocSum"
    (pyEnsureList doc_sum_list).mapM parseDocSum
  else
    pure []

/-- Embedded `NCBIClient.summary` as a function of the parsed esummary response. -/
def NCBIClient.summary (response : Except String PyVal) : Except String (List SummaryResult) :=
  response.bind parseSummary

/-! Embedding of `NCBIClient.link` (ncbi_client.py, lines 225-262). -/

/-- Innermost loop body of `link`: one `Link` element contributes its `Id`
leaf when present. -/
def linkIdsOfLink (acc : List PyVal) (lk : PyVal) : Except String (List PyVal) := do
  let inId ← py_in "Id" lk
  if inId then do
    let idv ← pyGet lk "Id"
    pure (acc ++ [idv])
  else
    pure acc

/-- Middle loop body of `link`: one `LinkSetDb` element contributes the ids
of its (list-normalised) `Link` children. -/
def linkIdsOfLsdb (acc : List PyVal) (lsdb : PyVal) : Except String (List PyVal) := do
  let inLink ← py_in "Link" lsdb
  if inLink then do
    let links ← pyGet lsdb "Link"
    (pyEnsureList links).foldlM linkIdsOfLink acc
  else
    pure acc

/-- Outer loop body of `link`: one `LinkSet` element contributes the ids of
its (list-normalised) `LinkSetDb` children. -/
def linkIdsOfLs (acc : List PyVal) (ls : PyVal) : Except String (List PyVal) := do
  let inDb ← py_in "LinkSetDb" ls
  if inDb then do
    let lsdb ← pyGet ls "LinkSetDb"
    (pyEnsureList lsdb).foldlM linkIdsOfLsdb acc
  else
    pure acc

/-- Body of `NCBIClient.link` after the elink request: guarded descent into
`eLinkResult/LinkSet`, then the three nested loops flattening every leaf
`Id` into one list. -/
def parseLink (result : PyVal) : Except String (List PyVal) := do
  let inE ← py_in "eLinkResult" result
  let inLS ←
    if inE then do
      let e ← pyGet result "eLinkResult"
      py_in "LinkSet" e
    else
      pure false
  if inE && inLS then do
    let e ← pyGet result "eLinkResult"
    let link_set ← pyGet e "LinkSet"
    (pyEnsureList link_set).foldlM linkIdsOfLs []
  else
    pure []

/-- Embedded `NCBIClient.link` as a function of the parsed elink response. -/
def NCBIClient.link (response : Except String PyVal) : Except String (List PyVal) :=
  response.bind parseLink

/-! Embedding of `NCBIClient.get_databases` (ncbi_client.py, lines 351-403). -/

/-- The hard-coded catalog returned when anything in the einfo path
raises. -/
def fallbackDatabases : List String :=
  ["pubmed", "protein", "nucleotide", "nuccore", "nucest", "nucgss",
   "genome", "assembly", "bioproject", "biosample", "books", "cdd",
   "clinvar", "gap", "gapplus", "grasp", "dbvar", "gene", "gds",
   "geoprofiles", "homologene", "mesh", "nlmcatalog", "omim", "pmc",
   "popset", "probe", "proteinclusters", "pcassay", "pccompound",
   "pcsubstance", "snp", "sra", "taxonomy", "unigene"]

/-- The `try` body of `get_databases`: guarded descent to
`eInfoResult/DbList`, then an unguarded `DbName` subscript, list-normalised;
a response without the expected keys leaves `databases = []`. -/
def parseDatabases (info : PyVal) : Except String (List PyVal) := do
  let inE ← py_in "eInfoResult" info
  let inDb ←
    if inE then do
      let e ← pyGet info "eInfoResult"
      py_in "DbList" e
    else
      pure false
  if inE && inDb then do
    let e ← pyGet info "eInfoResult"
    let dbl ← pyGet e "DbList"
    let db_list ← pyGet dbl "DbName"
    pure (pyEnsureList db_list)
  else
    pure []

/-- Embedded `NCBIClient.get_databases`: any exception (transport or parse) from the
einfo path is swallowed and replaced by the fallback catalog. -/
def NCBIClient.get_databases (info_result : Except String PyVal) : List PyVal :=
  match info_result.bind parseDatabases with
  | .ok dbs => dbs
  | .error _ => fallbackDatabases.map PyVal.str

/-! Embedding of `NCBIClient.blast_search` (ncbi_client.py, lines 273-349).

The delegate (`NCBIWWW.qblast` + `NCBIXML.parse`) is an external
collaborator; its outcome is a parameter: either an exception or the list of
parsed Biopython records.  A Biopython HSP always carries all ten attributes
read by the code. -/

/-- One Biopython HSP as read by the reshaping loop (`hsp.match` is named
`matchLine` here because `match` is a Lean keyword). -/
structure DelegateHsp where
  score : PyVal
  bits : PyVal
  expect : PyVal
  query_start : PyVal
  query_end : PyVal
  sbjct_start : PyVal
  sbjct_end : PyVal
  query : PyVal
  matchLine : PyVal
  sbjct : PyVal
deriving Repr

/-- One Biopython alignment as read by the reshaping loop. -/
structure DelegateAlignment where
  title : PyVal
  length : PyVal
  hsps : List DelegateHsp
deriving Repr

/-- One Biopython BLAST record as read by the reshaping loop. -/
structure DelegateRecord where
  query : PyVal
  query_length : PyVal
  alignments : List DelegateAlignment
deriving Repr

/-- The `hsp_data` dict: seven coordinate/score fields always, plus the
three aligned strings exactly when `output_fmt == "full"`. -/
def hspData (output_fmt : String) (hsp : DelegateHsp) : PyDict :=
  let base : PyDict :=
    [("score", hsp.score), ("bits", hsp.bits), ("expect", hsp.expect),
     ("query_start", hsp.query_start), ("query_end", hsp.query_end),
     ("sbjct_start", hsp.sbjct_start), ("sbjct_end", hsp.sbjct_end)]
  if output_fmt = "full" then
    base ++ [("query", hsp.query), ("match", hsp.matchLine), ("sbjct", hsp.sbjct)]
  else
    base

/-- The `alignment_data` dict. -/
def alignmentData (output_fmt : String) (al : DelegateAlignment) : PyDict :=
  [("title", al.title), ("length", al.length),
   ("hsps", .list (al.hsps.map (fun h => .dict (hspData output_fmt h))))]

/-- The `record_data` dict. -/
def recordData (output_fmt : String) (r : DelegateRecord) : PyDict :=
  [("query", r.query), ("query_length", r.query_length),
   ("alignments", .list (r.alignments.map (fun a => .dict (alignmentData output_fmt a))))]

/-- The `BlastResult` pydantic model (`results` is `None` or a dict). -/
structure BlastResult where
  rid : String
  status : String
  results : PyVal
deriving Repr

/-- Embedded `NCBIClient.blast_search`: validates `output_fmt`, runs the delegate,
reshapes its records; the surrounding `try/except` converts every exception
into a `status = "error"` result carrying the exception text. -/
def NCBIClient.blast_search (output_fmt : String)
    (qblast : Except String (List DelegateRecord)) : BlastResult :=
  let body : Except String BlastResult :=
    if ¬ (output_fmt = "full" ∨ output_fmt = "summary") then
      .error "Invalid output_fmt value. Must be \x27full\x27 or \x27summary\x27."
    else
      match qblast with
      | .error e => .error e
      | .ok records =>
          let results := records.map (fun r => PyVal.dict (recordData output_fmt r))
          .ok { rid := "completed", status := "completed",
                results := .dict [("records", .list results)] }
  match body with
  | .ok r => r
  | .error e => { rid := "error", status := "error", results := .dict [("error", .str e)] }

/-! Facade tools (server.py).

Each tool wraps one client call in `try/except`, returning a JSON success
envelope or a `{success: false, error, ...}` failure envelope.  Envelopes
are embedded as inductive values carrying the same fields. -/

/-- Envelope of the `blast_search` tool (server.py, lines 316-390). -/
inductive BlastEnvelope where
  | success (program database rid status : String) (results : PyVal)
  | failure (error program database : String)
deriving Repr

/-- Parameter names of `NCBIClient.blast_search` (ncbi_client.py, lines
273-283). -/
def clientBlastParamNames : List String :=
  ["program", "database", "sequence", "expect", "word_size", "matrix",
   "gapcosts", "output_fmt"]

/-- Keyword arguments the facade passes in its delegation call (server.py,
lines 354-364). -/
def facadeBlastKwargNames : List String :=
  ["program", "database", "sequence", "expect", "word_size", "matrix",
   "gapcosts", "output_fmt", "megablast"]

/-- Python keyword-argument binding: a call whose keyword argument does not
name a parameter of the callee raises `TypeError` before the callee body
runs. -/
def bindKwargs (params kwargs : List String) : Except String Unit :=
  match kwargs.find? (fun k => !params.contains k) with
  | some k => .error ("TypeError: blast_search() got an unexpected keyword argument " ++ k)
  | Option.none => .ok ()

/-- The `blast_search` facade tool.  The second component records whether
the BLAST delegation (the only network activity on this path) was reached.
The facade validates `output_fmt`, then calls the client with the keyword
arguments of `facadeBlastKwargNames`; any exception is turned into a
failure envelope echoing `program` and `database`. -/
def server_blast_search (program database sequence output_fmt : String)
    (megablast : Option Bool)
    (qblast : Except String (List DelegateRecord)) : BlastEnvelope × Bool :=
  let body : Except String (BlastEnvelope × Bool) :=
    if ¬ (output_fmt = "full" ∨ output_fmt = "summary") then
      .error "Invalid output_fmt value. Must be \x27full\x27 or \x27summary\x27."
    else
      match bindKwargs clientBlastParamNames facadeBlastKwargNames with
      | .error e => .error e
      | .ok _ =>
          let r := NCBIClient.blast_search output_fmt qblast
          .ok (.success program database r.rid r.status r.results, true)
  match body with
  | .ok x => x
  | .error e => (.failure e program database, false)

/-- Envelope of the `find_related_records` tool (server.py, lines
206-256). -/
inductive LinkEnvelope where
  | success (source_database target_database : String) (source_ids : List String)
      (related_ids : List PyVal) (related_count : Nat)
  | failure (error source_database target_database : String) (ids : List String)
deriving Repr

/-- The `find_related_records` facade tool over the parsed elink
response. -/
def server_find_related_records (source_database target_database : String)
    (ids : List String) (response : Except String PyVal) : LinkEnvelope :=
  match NCBIClient.link response with
  | .ok related_ids =>
      .success source_database target_database ids related_ids related_ids.length
  | .error e => .failure e source_database target_database ids

/-- The per-record dict the `summarize_records` tool serialises (server.py,
lines 180-192). -/
def summaryDataOf (s : SummaryResult) : PyDict :=
  [("uid", s.uid), ("title", s.title), ("authors", .list s.authors),
   ("journal", s.journal), ("pub_date", s.pub_date), ("doi", s.doi),
   ("pmid", s.pmid)]

/-- Envelope of the `summarize_records` tool (server.py, lines 159-203). -/
inductive SummaryEnvelope where
  | success (database : String) (summaries : List PyDict)
  | failure (error database : String) (ids : List String)
deriving Repr

/-- The `summarize_records` facade tool over the parsed esummary
response. -/
def server_summarize_records (database : String) (ids : List String)
    (response : Except String PyVal) : SummaryEnvelope :=
  match NCBIClient.summary response with
  | .ok summaries => .success database (summaries.map summaryDataOf)
  | .error e => .failure e database ids

/-- Envelope of the `list_databases` tool (server.py, lines 290-313). -/
inductive DatabasesEnvelope where
  | success (databases : List PyVal) (count : Nat)
  | failure (error : String)
deriving Repr

/-- The `list_databases` facade tool: `get_databases` is total, so the
success branch is always taken. -/
def server_list_databases (info_result : Except String PyVal) : DatabasesEnvelope :=
  let databases := NCBIClient.get_databases info_result
  .success databases databases.length

/-! Theorems.

First, small reduction lemmas for the `Except` monad used to evaluate the
embedded operations symbolically (both the method and the type-class
spelling occur in elaborated terms). -/

theorem bindE_ok {α β ε : Type} (a : α) (f : α → Except ε β) :
    (Except.ok a : Except ε α).bind f = f a := rfl

theorem bindE_err {α β ε : Type} (e : ε) (f : α → Except ε β) :
    (Except.error e : Except ε α).bind f = Except.error e := rfl

theorem bindM_ok {α β ε : Type} (a : α) (f : α → Except ε β) :
    (Except.ok a : Except ε α) >>= f = f a := rfl

theorem bindM_err {α β ε : Type} (e : ε) (f : α → Except ε β) :
    (Except.error e : Except ε α) >>= f = Except.error e := rfl

theorem mapM_ok {α β ε : Type} (f : α → β) (a : α) :
    f <$> (Except.ok a : Except ε α) = Except.ok (f a) := rfl

theorem mapM_err {α β ε : Type} (f : α → β) (e : ε) :
    f <$> (Except.error e : Except ε α) = Except.error e := rfl

theorem pureE {α ε : Type} (a : α) :
    (pure a : Except ε α) = Except.ok a := rfl

/-- C1: the claim says a `blast_search` tool invocation with required
inputs and a valid output mode accepts the optional megablast flag and
returns a success envelope built from the client result.  The code does
not: the facade forwards a `megablast` keyword argument that
`NCBIClient.blast_search` does not declare, so every invocation raises
`TypeError` at the delegation call and is answered with a failure
envelope.  This theorem evaluates the facade at such an invocation. -/
theorem blast_tool_valid_call_fails :
    server_blast_search "blastn" "nt" "ACGT" "summary" (some true) (.ok []) =
      (BlastEnvelope.failure
        "TypeError: blast_search() got an unexpected keyword argument megablast"
        "blastn" "nt", false) := rfl

/-- C2: an `output_fmt` that is neither `"full"` nor `"summary"` makes the
`blast_search` tool return a failure envelope, and the BLAST delegation
(the network call) is never reached. -/
theorem blast_tool_invalid_output_fmt (program database sequence output_fmt : String)
    (megablast : Option Bool) (qblast : Except String (List DelegateRecord))
    (h1 : output_fmt ≠ "full") (h2 : output_fmt ≠ "summary") :
    server_blast_search program database sequence output_fmt megablast qblast =
      (BlastEnvelope.failure
        "Invalid output_fmt value. Must be \x27full\x27 or \x27summary\x27."
        program database, false) := by
  unfold server_blast_search
  simp [h1, h2]

/-- Witness for C2 at `output_fmt = "xml"`. -/
theorem blast_tool_invalid_output_fmt_witness :
    server_blast_search "blastn" "nt" "ACGT" "xml" Option.none (.ok []) =
      (BlastEnvelope.failure
        "Invalid output_fmt value. Must be \x27full\x27 or \x27summary\x27."
        "blastn" "nt", false) :=
  blast_tool_invalid_output_fmt "blastn" "nt" "ACGT" "xml" Option.none (.ok [])
    (by decide) (by decide)

/-- C4: `NCBIClient.blast_search` is total (the embedding returns a
`BlastResult`, never an exception), and a delegate failure is converted
into a `status = "error"` result whose `results` dict carries the
exception text under `"error"`. -/
theorem blast_client_converts_delegate_error (output_fmt e : String)
    (h : output_fmt = "full" ∨ output_fmt = "summary") :
    NCBIClient.blast_search output_fmt (.error e) =
      { rid := "error", status := "error",
        results := .dict [("error", .str e)] } := by
  unfold NCBIClient.blast_search
  rw [if_neg (not_not_intro h)]

/-- Witness for C4 at `output_fmt = "full"`, delegate exception "boom". -/
theorem blast_client_converts_delegate_error_witness :
    NCBIClient.blast_search "full" (.error "boom") =
      { rid := "error", status := "error",
        results := .dict [("error", .str "boom")] } :=
  blast_client_converts_delegate_error "full" "boom" (Or.inl rfl)

/-- C9: in every `BlastResult` the client produces, `rid` equals `status`
(each is `"completed"` or `"error"`); `rid` never carries a BLAST request
identifier. -/
theorem blast_rid_equals_status (output_fmt : String)
    (qblast : Except String (List DelegateRecord)) :
    (NCBIClient.blast_search output_fmt qblast).rid =
      (NCBIClient.blast_search output_fmt qblast).status ∧
    ((NCBIClient.blast_search output_fmt qblast).rid = "completed" ∨
     (NCBIClient.blast_search output_fmt qblast).rid = "error") := by
  unfold NCBIClient.blast_search
  by_cases h : output_fmt = "full" ∨ output_fmt = "summary"
  · rw [if_neg (not_not_intro h)]
    cases qblast with
    | error e => exact ⟨rfl, Or.inr rfl⟩
    | ok records => exact ⟨rfl, Or.inl rfl⟩
  · rw [if_pos h]
    exact ⟨rfl, Or.inr rfl⟩

/-- C5 counterexample: the claim says `get_databases` never returns an
empty list (fallback on any failure, upstream list otherwise).  But a
successfully parsed einfo response that merely lacks the
`eInfoResult`/`DbList` keys raises no exception, so the code returns the
initial `databases = []` — neither the fallback catalog nor a
database-name list. -/
theorem get_databases_empty_on_unexpected_shape :
    NCBIClient.get_databases (.ok (.dict [("einfo", .str "ok")])) = [] := rfl

/-- C5 amended: `get_databases` is total; any exception (transport failure,
or a parse error such as a missing `DbName` key) yields the fixed 35-entry
fallback catalog (≥ 30 entries); a response carrying
`eInfoResult/DbList/DbName` yields the upstream names (scalar normalised to
a singleton); but a parseable response lacking the expected keys yields an
empty list. -/
theorem get_databases_amended :
    (∀ e : String, NCBIClient.get_databases (.error e) = fallbackDatabases.map PyVal.str) ∧
    fallbackDatabases.length = 35 ∧
    30 ≤ fallbackDatabases.length ∧
    (∀ dbv : PyVal,
      NCBIClient.get_databases (.ok (.dict [("eInfoResult", .dict
        [("DbList", .dict [("DbName", dbv)])])])) = pyEnsureList dbv) ∧
    (∀ d : PyDict, hasKey d "DbName" = false →
      NCBIClient.get_databases (.ok (.dict [("eInfoResult", .dict
        [("DbList", .dict d)])])) = fallbackDatabases.map PyVal.str) := by
  refine ⟨fun e => rfl, rfl, by decide, fun dbv => rfl, fun d hd => ?_⟩
  have hnone : lookupKey d "DbName" = Option.none := by
    cases h2 : lookupKey d "DbName" with
    | none => rfl
    | some v => rw [hasKey, h2] at hd; cases hd
  unfold NCBIClient.get_databases parseDatabases
  simp [py_in, pyGet, hasKey, lookupKey, bindE_ok, bindE_err, bindM_ok, bindM_err,
    mapM_ok, mapM_err, pureE, hnone]

/-- Witness for C5 amended: fallback on transport error and on a missing
`DbName` key. -/
theorem get_databases_amended_witness :
    NCBIClient.get_databases (.error "HTTP 500") = fallbackDatabases.map PyVal.str ∧
    NCBIClient.get_databases (.ok (.dict [("eInfoResult", .dict
      [("DbList", .dict [])])])) = fallbackDatabases.map PyVal.str :=
  ⟨get_databases_amended.1 "HTTP 500", get_databases_amended.2.2.2.2 [] rfl⟩

/-- C6 counterexample: the claim says every `SearchResult` satisfies
`len(ids) ≤ retmax` for every parsed upstream response.  The code copies
the RetMax field and the Id list of the response through independently and
enforces no relation between them: a response reporting `RetMax = 0` with
two ids yields `len(ids) = 2 > 0`. -/
theorem search_ids_exceed_retmax :
    ¬ (∀ r, NCBIClient.search (.ok (.dict [("eSearchResult", .dict
        [("Count", .str "2"), ("RetMax", .str "0"), ("RetStart", .str "0"),
         ("IdList", .dict [("Id", .list [.str "28551", .str "28552"])])])])) = .ok r →
        (r.ids.length : Int) ≤ r.retmax) :=
  fun h =>
    absurd
      (h { count := 2, retmax := 0, retstart := 0,
           ids := [.str "28551", .str "28552"],
           query_translation := .none, web_env := .none, query_key := .none } rfl)
      (by decide)

/-- C6 amended: `search` returns the id list and the RetMax value of the response
unchanged (no truncation of its own), so `len(ids) ≤ retmax` holds exactly
when the upstream response reports a `RetMax` at least the number of ids it
carries. -/
theorem search_bound_follows_upstream (c m st : String) (cv mv sv : Int)
    (xs : List PyVal)
    (hc : pyStrToInt c = some cv) (hm : pyStrToInt m = some mv)
    (hst : pyStrToInt st = some sv)
    (hbound : (xs.length : Int) ≤ mv) :
    ∀ r, NCBIClient.search (.ok (.dict [("eSearchResult", .dict
        [("Count", .str c), ("RetMax", .str m), ("RetStart", .str st),
         ("IdList", .dict [("Id", .list xs)])])])) = .ok r →
      r.ids = xs ∧ r.retmax = mv ∧ (r.ids.length : Int) ≤ r.retmax := by
  intro r hr
  unfold NCBIClient.search parseSearch at hr
  simp [py_in, pyGet, hasKey, lookupKey, pyTruthy, pyEnsureList, searchGetInt,
        pyIntOfVal, hc, hm, hst, bindE_ok, bindE_err, bindM_ok, bindM_err,
        mapM_ok, mapM_err, pureE] at hr
  subst hr
  exact ⟨rfl, rfl, hbound⟩

/-- Witness for C6 amended at a two-id response with `RetMax = "2"`. -/
theorem search_bound_follows_upstream_witness :
    NCBIClient.search (.ok (.dict [("eSearchResult", .dict
        [("Count", .str "2"), ("RetMax", .str "2"), ("RetStart", .str "0"),
         ("IdList", .dict [("Id", .list [.str "28551", .str "28552"])])])])) =
      .ok { count := 2, retmax := 2, retstart := 0,
            ids := [.str "28551", .str "28552"],
            query_translation := .none, web_env := .none, query_key := .none } ∧
    (([PyVal.str "28551", PyVal.str "28552"].length : Int) ≤ 2) :=
  ⟨rfl,
   (search_bound_follows_upstream "2" "2" "0" 2 2 0
      [.str "28551", .str "28552"] rfl rfl rfl (by decide) _ rfl).2.2⟩

/-- C7: `search` normalises the `IdList/Id` single-vs-list ambiguity (a
bare scalar becomes a one-element list, a list is kept in order), and each
of `Count`, `RetMax`, `RetStart` missing from the response defaults to 0
(shown with all three missing, and with only `Count` present). -/
theorem search_normalizes_ids_and_defaults :
    (∀ idv : PyVal,
      NCBIClient.search (.ok (.dict [("eSearchResult", .dict
        [("IdList", .dict [("Id", idv)])])])) =
      .ok { count := 0, retmax := 0, retstart := 0, ids := pyEnsureList idv,
            query_translation := .none, web_env := .none, query_key := .none }) ∧
    (∀ s : String, pyEnsureList (.str s) = [.str s]) ∧
    (∀ vs : List PyVal, pyEnsureList (.list vs) = vs) ∧
    (∀ idv : PyVal,
      NCBIClient.search (.ok (.dict [("eSearchResult", .dict
        [("Count", .str "7"), ("IdList", .dict [("Id", idv)])])])) =
      .ok { count := 7, retmax := 0, retstart := 0, ids := pyEnsureList idv,
            query_translation := .none, web_env := .none, query_key := .none }) :=
  ⟨fun idv => rfl, fun s => rfl, fun vs => rfl, fun idv => rfl⟩

/-- HSP dicts of one serialised alignment value (used to state C3: walks
the `"hsps"` list the reshaping wrote into an alignment dict). -/
def hspDictsOfAlign : PyVal → List PyDict
  | .dict d =>
      match lookupKey d "hsps" with
      | some (.list hs) =>
          hs.flatMap (fun h => match h with | PyVal.dict hd => [hd] | _ => [])
      | _ => []
  | _ => []

/-- HSP dicts of one serialised record value. -/
def hspDictsOfRecord : PyVal → List PyDict
  | .dict d =>
      match lookupKey d "alignments" with
      | some (.list als) => als.flatMap hspDictsOfAlign
      | _ => []
  | _ => []

/-- Every HSP dict reachable inside the results tree of a `BlastResult`. -/
def hspDictsOfResult (r : BlastResult) : List PyDict :=
  match r.results with
  | .dict d =>
      match lookupKey d "records" with
      | some (.list recs) => recs.flatMap hspDictsOfRecord
      | _ => []
  | _ => []

theorem flatMapHspDicts (fmt : String) (hs : List DelegateHsp) :
    (hs.map (fun h => PyVal.dict (hspData fmt h))).flatMap
      (fun h => match h with | PyVal.dict hd => [hd] | _ => ([] : List PyDict)) =
    hs.map (hspData fmt) := by
  induction hs with
  | nil => rfl
  | cons h t ih => simp only [List.map_cons, List.flatMap_cons, ih]; rfl

theorem hspDictsOfAlign_eval (fmt : String) (al : DelegateAlignment) :
    hspDictsOfAlign (.dict (alignmentData fmt al)) = al.hsps.map (hspData fmt) :=
  flatMapHspDicts fmt al.hsps

theorem flatMapAlignDicts (fmt : String) (als : List DelegateAlignment) :
    (als.map (fun a => PyVal.dict (alignmentData fmt a))).flatMap hspDictsOfAlign =
      als.flatMap (fun al => al.hsps.map (hspData fmt)) := by
  induction als with
  | nil => rfl
  | cons a t ih =>
      simp only [List.map_cons, List.flatMap_cons, ih, hspDictsOfAlign_eval]

theorem hspDictsOfRecord_eval (fmt : String) (r : DelegateRecord) :
    hspDictsOfRecord (.dict (recordData fmt r)) =
      r.alignments.flatMap (fun al => al.hsps.map (hspData fmt)) :=
  flatMapAlignDicts fmt r.alignments

theorem hspDictsOfResult_eval (fmt : String) (records : List DelegateRecord)
    (h : fmt = "full" ∨ fmt = "summary") :
    hspDictsOfResult (NCBIClient.blast_search fmt (.ok records)) =
      records.flatMap
        (fun r => r.alignments.flatMap (fun al => al.hsps.map (hspData fmt))) := by
  unfold NCBIClient.blast_search
  rw [if_neg (not_not_intro h)]
  show (records.map (fun r => PyVal.dict (recordData fmt r))).flatMap hspDictsOfRecord = _
  induction records with
  | nil => rfl
  | cons r t ih =>
      simp only [List.map_cons, List.flatMap_cons, ih, hspDictsOfRecord_eval]

theorem hasKey_hspData (fmt : String) (h : DelegateHsp)
    (hfmt : fmt = "full" ∨ fmt = "summary") :
    (hasKey (hspData fmt h) "query" = true ↔ fmt = "full") ∧
    (hasKey (hspData fmt h) "match" = true ↔ fmt = "full") ∧
    (hasKey (hspData fmt h) "sbjct" = true ↔ fmt = "full") := by
  rcases hfmt with hfmt | hfmt <;> subst hfmt <;>
    simp [hspData, hasKey, lookupKey]

/-- C3: in a successful `blast_search` result, an HSP dict contains each of
the aligned-string fields `query`, `match`, `sbjct` if and only if the
output mode is `"full"` — for every delegate outcome (hence independent of
the query), quantified over every HSP dict in the result tree. -/
theorem blast_alignment_strings_iff_full (output_fmt : String)
    (records : List DelegateRecord) (hd : PyDict)
    (hfmt : output_fmt = "full" ∨ output_fmt = "summary")
    (hmem : hd ∈ hspDictsOfResult (NCBIClient.blast_search output_fmt (.ok records))) :
    (hasKey hd "query" = true ↔ output_fmt = "full") ∧
    (hasKey hd "match" = true ↔ output_fmt = "full") ∧
    (hasKey hd "sbjct" = true ↔ output_fmt = "full") := by
  rw [hspDictsOfResult_eval output_fmt records hfmt] at hmem
  rcases List.mem_flatMap.mp hmem with ⟨r, _, hmem2⟩
  rcases List.mem_flatMap.mp hmem2 with ⟨al, _, hmem3⟩
  rcases List.mem_map.mp hmem3 with ⟨hsp, _, rfl⟩
  exact hasKey_hspData output_fmt hsp hfmt

/-- A concrete delegate HSP for the C3 witness. -/
def sampleHsp : DelegateHsp :=
  { score := .str "100", bits := .str "50.1", expect := .str "0.001",
    query_start := .str "1", query_end := .str "20",
    sbjct_start := .str "5", sbjct_end := .str "24",
    query := .str "ACGT", matchLine := .str "||||", sbjct := .str "ACGT" }

/-- A concrete delegate record for the C3 witness. -/
def sampleRecord : DelegateRecord :=
  { query := .str "q", query_length := .str "20",
    alignments := [{ title := .str "t", length := .str "100", hsps := [sampleHsp] }] }

/-- Witness for C3 at `output_fmt = "full"` with one record, one alignment
and one HSP. -/
theorem blast_alignment_strings_iff_full_witness :
    (hasKey (hspData "full" sampleHsp) "query" = true ↔ ("full" : String) = "full") ∧
    (hasKey (hspData "full" sampleHsp) "match" = true ↔ ("full" : String) = "full") ∧
    (hasKey (hspData "full" sampleHsp) "sbjct" = true ↔ ("full" : String) = "full") :=
  blast_alignment_strings_iff_full "full" [sampleRecord] (hspData "full" sampleHsp)
    (Or.inl rfl) (List.Mem.head _)

/-- C8: an elink response with no links — the relevant key missing at any
nesting level — makes `find_related_records` answer a success envelope with
`related_count = 0` and an empty `related_ids` list (first five conjuncts,
one per level); and every leaf `Id` is flattened into one flat list across
scalar-vs-list encodings at each of the three levels (last conjunct: two
link sets, one fully scalar, one with a list of link-set-dbs containing a
list of links and a scalar link). -/
theorem find_related_empty_and_flattening :
    (∀ (srcdb tgtdb : String) (ids : List String) (d : PyDict),
      hasKey d "eLinkResult" = false →
      server_find_related_records srcdb tgtdb ids (.ok (.dict d)) =
        .success srcdb tgtdb ids [] 0) ∧
    (∀ (srcdb tgtdb : String) (ids : List String) (d : PyDict),
      hasKey d "LinkSet" = false →
      server_find_related_records srcdb tgtdb ids
        (.ok (.dict [("eLinkResult", .dict d)])) =
        .success srcdb tgtdb ids [] 0) ∧
    (∀ (srcdb tgtdb : String) (ids : List String) (d : PyDict),
      hasKey d "LinkSetDb" = false →
      server_find_related_records srcdb tgtdb ids
        (.ok (.dict [("eLinkResult", .dict [("LinkSet", .dict d)])])) =
        .success srcdb tgtdb ids [] 0) ∧
    (∀ (srcdb tgtdb : String) (ids : List String) (d : PyDict),
      hasKey d "Link" = false →
      server_find_related_records srcdb tgtdb ids
        (.ok (.dict [("eLinkResult", .dict [("LinkSet", .dict
          [("LinkSetDb", .dict d)])])])) =
        .success srcdb tgtdb ids [] 0) ∧
    (∀ (srcdb tgtdb : String) (ids : List String) (d : PyDict),
      hasKey d "Id" = false →
      server_find_related_records srcdb tgtdb ids
        (.ok (.dict [("eLinkResult", .dict [("LinkSet", .dict
          [("LinkSetDb", .dict [("Link", .dict d)])])])])) =
        .success srcdb tgtdb ids [] 0) ∧
    (∀ (srcdb tgtdb : String) (ids : List String) (i1 i2 i3 i4 : PyVal),
      server_find_related_records srcdb tgtdb ids
        (.ok (.dict [("eLinkResult", .dict [("LinkSet", .list
          [.dict [("LinkSetDb", .dict [("Link", .dict [("Id", i1)])])],
           .dict [("LinkSetDb", .list
             [.dict [("Link", .list [.dict [("Id", i2)], .dict [("Id", i3)]])],
              .dict [("Link", .dict [("Id", i4)])]])]])])])) =
        .success srcdb tgtdb ids [i1, i2, i3, i4] 4) := by
  refine ⟨fun srcdb tgtdb ids d hd => ?_, fun srcdb tgtdb ids d hd => ?_,
          fun srcdb tgtdb ids d hd => ?_, fun srcdb tgtdb ids d hd => ?_,
          fun srcdb tgtdb ids d hd => ?_, fun srcdb tgtdb ids i1 i2 i3 i4 => rfl⟩ <;>
    · unfold server_find_related_records NCBIClient.link parseLink linkIdsOfLs
        linkIdsOfLsdb linkIdsOfLink
      unfold hasKey at hd
      simp [py_in, pyGet, hasKey, lookupKey, pyEnsureList, hd, bindE_ok, bindE_err,
        bindM_ok, bindM_err, mapM_ok, mapM_err, pureE, List.foldlM]

/-- Witness for C8: the `eLinkResult`-missing case at the empty response
dict, and the `Id`-missing case at an idless link. -/
theorem find_related_empty_and_flattening_witness :
    server_find_related_records "pubmed" "protein" ["42"] (.ok (.dict [])) =
      .success "pubmed" "protein" ["42"] [] 0 ∧
    server_find_related_records "pubmed" "protein" ["42"]
      (.ok (.dict [("eLinkResult", .dict [("LinkSet", .dict
        [("LinkSetDb", .dict [("Link", .dict [("Score", .str "9")])])])])])) =
      .success "pubmed" "protein" ["42"] [] 0 ∧
    server_find_related_records "pubmed" "protein" ["42"]
      (.ok (.dict [("eLinkResult", .dict [("LinkSet", .list
        [.dict [("LinkSetDb", .dict [("Link", .dict [("Id", .str "1")])])],
         .dict [("LinkSetDb", .list
           [.dict [("Link", .list [.dict [("Id", .str "2")], .dict [("Id", .str "3")]])],
            .dict [("Link", .dict [("Id", .str "4")])]])]])])])) =
      .success "pubmed" "protein" ["42"] [.str "1", .str "2", .str "3", .str "4"] 4 :=
  ⟨find_related_empty_and_flattening.1 "pubmed" "protein" ["42"] [] rfl,
   find_related_empty_and_flattening.2.2.2.2.1 "pubmed" "protein" ["42"]
     [("Score", .str "9")] rfl,
   find_related_empty_and_flattening.2.2.2.2.2 "pubmed" "protein" ["42"]
     (.str "1") (.str "2") (.str "3") (.str "4")⟩

/-- C10: the two empty esummary shapes are handled asymmetrically — a
response without `eSummaryResult` yields `.ok []`, but `eSummaryResult`
present (as a dict) without `DocSum` raises `KeyError`, which the
`summarize_records` facade surfaces as a failure envelope. -/
theorem summary_empty_shapes_asymmetric :
    (∀ d : PyDict, hasKey d "eSummaryResult" = false →
      NCBIClient.summary (.ok (.dict d)) = .ok []) ∧
    (∀ (db : String) (ids : List String) (d : PyDict),
      hasKey d "DocSum" = false →
      NCBIClient.summary (.ok (.dict [("eSummaryResult", .dict d)])) =
        .error "KeyError: DocSum" ∧
      server_summarize_records db ids (.ok (.dict [("eSummaryResult", .dict d)])) =
        .failure "KeyError: DocSum" db ids) := by
  constructor
  · intro d hd
    unfold NCBIClient.summary parseSummary
    simp [py_in, hd, bindE_ok, bindE_err, bindM_ok, bindM_err, mapM_ok, mapM_err, pureE]
  · intro db ids d hd
    have hnone : lookupKey d "DocSum" = Option.none := by
      cases h2 : lookupKey d "DocSum" with
      | none => rfl
      | some v => rw [hasKey, h2] at hd; cases hd
    have hsum : NCBIClient.summary (.ok (.dict [("eSummaryResult", .dict d)])) =
        .error "KeyError: DocSum" := by
      unfold NCBIClient.summary parseSummary
      simp [py_in, pyGet, hasKey, lookupKey, hnone, bindE_ok, bindE_err, bindM_ok,
        bindM_err, mapM_ok, mapM_err, pureE]
    exact ⟨hsum, by unfold server_summarize_records; rw [hsum]⟩

/-- Witness for C10: a bare response and an `eSummaryResult` carrying only
an `ERROR` field. -/
theorem summary_empty_shapes_asymmetric_witness :
    NCBIClient.summary (.ok (.dict [("foo", .str "x")])) = .ok [] ∧
    server_summarize_records "pubmed" ["1"]
      (.ok (.dict [("eSummaryResult", .dict [("ERROR", .str "Empty id list")])])) =
      .failure "KeyError: DocSum" "pubmed" ["1"] :=
  ⟨summary_empty_shapes_asymmetric.1 [("foo", .str "x")] rfl,
   (summary_empty_shapes_asymmetric.2 "pubmed" ["1"]
     [("ERROR", .str "Empty id list")] rfl).2⟩

end NcbiMcp
